import Mathlib

/-!
Verification of the zahner_potentiostat core against its specification.

This file contains a shallow embedding of the two core modules:

* `scpi_control/datareceiver.py` — the telemetry decoder (`DataReceiver`):
  per-track online/complete buffers, clock stitching, packet processors.
* `scpi_control/serial_interface.py` — the command channel
  (`SerialCommandInterface`): two-lane reply demultiplexing and the
  close-sentinel delivery.
* `scpi_control/error.py` — the device error code table.

Machine floats of the source are modelled as integers: every value any
claim touches is exactly integral, and the only float operations the
claims exercise (addition and order comparison) restrict to the integers
without change; Python dicts
keyed by the closed track set are modelled as total functions from the
track enumeration; reads from the byte stream are modelled at the level of
already-deserialized wire items (u64 words, f64 values, NUL-terminated
strings), since no claim concerns the bit-level encoding.
-/

namespace Zahner

/-- `TrackTypes` enumeration of datareceiver.py. -/
inductive TrackTypes where
  | TIME
  | CURRENT
  | VOLTAGE
deriving DecidableEq, Repr

/-- Numeric identifiers of the tracks (`TrackTypes` enum values). -/
def TrackTypes.value : TrackTypes → Nat
  | .TIME => 13
  | .CURRENT => 12
  | .VOLTAGE => 11

/-- Exceptions raised by the modelled code paths. -/
inductive PyError where
  | dataProtocol (msg : String)
  | valueError (msg : String)
  | connectionError (msg : String)
  | zeroDivision
  | streamEnd
deriving DecidableEq, Repr

/-- `TrackTypes.numberToTrack`: convert a wire number to a track,
`ValueError` on an unknown number. -/
def numberToTrack (n : Nat) : Except PyError TrackTypes :=
  if n = TrackTypes.TIME.value then .ok TrackTypes.TIME
  else if n = TrackTypes.CURRENT.value then .ok TrackTypes.CURRENT
  else if n = TrackTypes.VOLTAGE.value then .ok TrackTypes.VOLTAGE
  else .error (.valueError "Unknown Track")

/-- `PacketTypes` constants of datareceiver.py. -/
def PacketTypes.DATALIGHT : Nat := 0xFEEDDA7A22222222

def PacketTypes.DATALIGHTBULK : Nat := 0xFEEDDA7A44444444

def PacketTypes.DATALIGHTBULKAPPENDUM : Nat := 0xFEEDDA7A77777777

def PacketTypes.MEASUREMENTHEADER : Nat := 0xB007F00D11111111

def PacketTypes.MEASUREMENTTRACKS : Nat := 0xADDDF00D11111111

/-- `HeaderState.DONE` value. -/
def HeaderState.DONE : Nat := 3

/-- `HeaderState.FINISHING` value. -/
def HeaderState.FINISHING : Nat := 4

/-- One already-deserialized item of the telemetry byte stream: an unsigned
64-bit word, a 64-bit float (modelled as an integer), or a NUL-terminated
string. -/
inductive Wire where
  | u64 (n : Nat)
  | f64 (q : Int)
  | strVal (s : String)
deriving DecidableEq, Repr

/-- The mutable state of a `DataReceiver` (datareceiver.py, `__init__`).
Buffer dicts are modelled as total functions on the closed track set; a
track that is absent from the Python dict maps to `[]`. -/
structure DecState where
  currentTrackTypes : List TrackTypes
  onlineData : TrackTypes → List Int
  completeData : TrackTypes → List Int
  maximumTimeInCycle : Int
  lastMaximumTime : Int
  lastHeaderSate : Option Nat
  lastPacketType : Option Nat

/-- The state of a freshly constructed receiver whose schema has been
established by a first MeasurementTracks frame with the given tracks. -/
def mkInitialState (tracks : List TrackTypes) : DecState :=
  { currentTrackTypes := tracks
    onlineData := fun _ => []
    completeData := fun _ => []
    maximumTimeInCycle := 0
    lastMaximumTime := 0
    lastHeaderSate := none
    lastPacketType := none }

/-- `_readU64`: take one u64 word from the stream. -/
def readU64 : List Wire → Except PyError (Nat × List Wire)
  | Wire.u64 n :: rest => .ok (n, rest)
  | _ => .error .streamEnd

/-- `_readF64`: take one f64 value from the stream. -/
def readF64 : List Wire → Except PyError (Int × List Wire)
  | Wire.f64 q :: rest => .ok (q, rest)
  | _ => .error .streamEnd

/-- `_readString`: take one NUL-terminated string from the stream. -/
def readString : List Wire → Except PyError (String × List Wire)
  | Wire.strVal s :: rest => .ok (s, rest)
  | _ => .error .streamEnd

/-- `_clearOnlineData`: set the online buffer of every schema track to `[]`
(the `for track in self._currentTrackTypes` loop). -/
def clearOnlineData (st : DecState) : DecState :=
  { st with onlineData :=
      st.currentTrackTypes.foldl (fun f track => Function.update f track []) st.onlineData }

/-- `_onlineDataToCompleteData`: extend every schema track's complete buffer
by its online buffer, clear the online buffers, fold the cycle maximum into
the base time offset. -/
def onlineDataToCompleteData (st : DecState) : DecState :=
  let complete1 :=
    st.currentTrackTypes.foldl
      (fun f track => Function.update f track (f track ++ st.onlineData track))
      st.completeData
  let st1 := { st with completeData := complete1 }
  let st2 := clearOnlineData st1
  { st2 with
      lastMaximumTime := st2.lastMaximumTime + st2.maximumTimeInCycle
      maximumTimeInCycle := 0 }

/-- The `for track in self._currentTrackTypes: dataPacket[track] = self._readF64()`
loop of `_processDataLight`: read one f64 per schema track into the sample
dict (threaded as a total function). -/
def readSample (tracks : List TrackTypes) (packet : TrackTypes → Int) (s : List Wire) :
    Except PyError ((TrackTypes → Int) × List Wire) :=
  match tracks with
  | [] => .ok (packet, s)
  | track :: rest =>
    match readF64 s with
    | .error e => .error e
    | .ok (v, s1) => readSample rest (Function.update packet track v) s1

/-- `_processDataLight`: check the implied track count against the schema,
read one sample, apply the clock stitch to its TIME value, append the sample
to the online buffer of every schema track. -/
def processDataLight (st : DecState) (length : Nat) (s : List Wire) :
    Except PyError (DecState × List Wire) :=
  if length = 8 * st.currentTrackTypes.length then
    match readSample st.currentTrackTypes (fun _ => 0) s with
    | .error e => .error e
    | .ok (dataPacket, s1) =>
      if TrackTypes.TIME ∈ st.currentTrackTypes then
        let time := dataPacket TrackTypes.TIME
        let newMax := if time > st.maximumTimeInCycle then time else st.maximumTimeInCycle
        let dataPacket1 := Function.update dataPacket TrackTypes.TIME (time + st.lastMaximumTime)
        let online :=
          st.currentTrackTypes.foldl
            (fun f track => Function.update f track (f track ++ [dataPacket1 track]))
            st.onlineData
        .ok ({ st with maximumTimeInCycle := newMax, onlineData := online }, s1)
      else .error (.dataProtocol "No Time track")
  else .error (.dataProtocol "numberOfTracks != len(self._currentTrackTypes)")

/-- The `for i in range(numberOfPackets): self._processDataLight(...)` loop
shared by the bulk and appendum processors. -/
def processDataLightRepeat (st : DecState) (n : Nat) (s : List Wire) :
    Except PyError (DecState × List Wire) :=
  match n with
  | 0 => .ok (st, s)
  | n + 1 =>
    match processDataLight st (8 * st.currentTrackTypes.length) s with
    | .error e => .error e
    | .ok (st1, s1) => processDataLightRepeat st1 n s1

/-- `_processDataLightBulk`: consume the start index, check that the
remaining length is an integer number of records (ZeroDivisionError when the
schema is empty), clear the online buffer, decode every record via the
DataLight path, commit online to complete. -/
def processDataLightBulk (st : DecState) (length : Nat) (s : List Wire) :
    Except PyError (DecState × List Wire) :=
  let lengthI : Int := (length : Int) - 8
  match readU64 s with
  | .error e => .error e
  | .ok (_startIndex, s1) =>
    if st.currentTrackTypes.length = 0 then .error .zeroDivision
    else if (st.currentTrackTypes.length * 8 : Int) ∣ lengthI then
      let numberOfPackets := (lengthI / (st.currentTrackTypes.length * 8 : Int)).toNat
      match processDataLightRepeat (clearOnlineData st) numberOfPackets s1 with
      | .error e => .error e
      | .ok (st2, s2) => .ok (onlineDataToCompleteData st2, s2)
    else .error (.dataProtocol "numberOfPackets for Bulk not correct")

/-- The minimum track length, which is the number of rows produced by
`zip(*self._onlineData.values())` (zip truncates at the shortest list;
`zip()` of an empty dict yields no rows). -/
def minTrackLength (tracks : List TrackTypes) (data : TrackTypes → List Int) : Nat :=
  ((tracks.map fun track => (data track).length).min?).getD 0

/-- The row list `zip(*self._onlineData.values())` of
`_sortOnlineDataByTrack`: row `i` holds the `i`-th value of every track in
schema order. -/
def zipRows (tracks : List TrackTypes) (data : TrackTypes → List Int) : List (List Int) :=
  (List.range (minTrackLength tracks data)).map
    fun i => tracks.map fun track => (data track).getD i 0

/-- `list(self._onlineData.keys()).index(track)`: position of a track in the
schema (first occurrence). -/
def trackIndex (tracks : List TrackTypes) (track : TrackTypes) : Nat :=
  tracks.indexOf track

/-- The comparison used by `sorted(..., key=lambda values: values[numberToSort])`:
compare rows by the entry in the key column. -/
def rowLe (k : Nat) (r1 r2 : List Int) : Prop :=
  r1.getD k 0 ≤ r2.getD k 0

instance rowLeDecidable (k : Nat) : DecidableRel (rowLe k) :=
  fun r1 r2 => inferInstanceAs (Decidable (r1.getD k 0 ≤ r2.getD k 0))

/-- `_sortOnlineDataByTrack`: zip the online buffers into rows, stable-sort
the rows by the named track's column, rebuild each track's buffer from its
column of the sorted rows (Python `sorted` is a stable sort; any stable
sort computes the same list, here `List.insertionSort`). -/
def sortOnlineDataByTrack (st : DecState) (trackType : TrackTypes) : DecState :=
  let keys := st.currentTrackTypes
  let numberToSort := trackIndex keys trackType
  let sorteddata := List.insertionSort (rowLe numberToSort) (zipRows keys st.onlineData)
  { st with onlineData := fun track =>
      if track ∈ keys then sorteddata.map (fun row => row.getD (trackIndex keys track) 0)
      else [] }

/-- `_processDataLightBulkAppendum`: consume the key track id, check the
implied record count, decode every record via the DataLight path, sort the
online buffer by the key track, commit online to complete. -/
def processDataLightBulkAppendum (st : DecState) (length : Nat) (s : List Wire) :
    Except PyError (DecState × List Wire) :=
  let lengthI : Int := (length : Int) - 8
  match readU64 s with
  | .error e => .error e
  | .ok (trackNumber, s1) =>
    match numberToTrack trackNumber with
    | .error e => .error e
    | .ok trackType =>
      if st.currentTrackTypes.length = 0 then .error .zeroDivision
      else if (st.currentTrackTypes.length * 8 : Int) ∣ lengthI then
        let numberOfPackets := (lengthI / (st.currentTrackTypes.length * 8 : Int)).toNat
        match processDataLightRepeat st numberOfPackets s1 with
        | .error e => .error e
        | .ok (st2, s2) =>
          .ok (onlineDataToCompleteData (sortOnlineDataByTrack st2 trackType), s2)
      else .error (.dataProtocol "numberOfPackets for Bulk appendum not correct")

/-- `_processMeasurementHeader`: read the header fields; when the new state
is FINISHING and the immediately preceding frame was a MeasurementHeader in
state DONE, commit online to complete; record the new header state. -/
def processMeasurementHeader (st : DecState) (_length : Nat) (s : List Wire) :
    Except PyError (DecState × List Wire) :=
  match readU64 s with
  | .error e => .error e
  | .ok (_measurementType, s1) =>
    match readU64 s1 with
    | .error e => .error e
    | .ok (measurementState, s2) =>
      match readString s2 with
      | .error e => .error e
      | .ok (_measurementFlags, s3) =>
        match readString s3 with
        | .error e => .error e
        | .ok (_measurementName, s4) =>
          let st1 :=
            if measurementState = HeaderState.FINISHING ∧
                st.lastPacketType = some PacketTypes.MEASUREMENTHEADER ∧
                st.lastHeaderSate = some HeaderState.DONE then
              onlineDataToCompleteData st
            else st
          .ok ({ st1 with lastHeaderSate := some measurementState }, s4)

/-- The per-track read loop of `_processMeasurementTracks`: for each of `n`
tracks read the numeric id and three strings and convert the id
(`ValueError` on an unknown id). -/
def readTrackDefs (n : Nat) (acc : List TrackTypes) (s : List Wire) :
    Except PyError (List TrackTypes × List Wire) :=
  match n with
  | 0 => .ok (acc, s)
  | n + 1 =>
    match readU64 s with
    | .error e => .error e
    | .ok (trackNumber, s1) =>
      match readString s1 with
      | .error e => .error e
      | .ok (_name, s2) =>
        match readString s2 with
        | .error e => .error e
        | .ok (_unit, s3) =>
          match readString s3 with
          | .error e => .error e
          | .ok (_flags, s4) =>
            match numberToTrack trackNumber with
            | .error e => .error e
            | .ok track => readTrackDefs n (acc ++ [track]) s4

/-- `_processMeasurementTracks`: read the new track list; an empty schema is
replaced by it (allocating empty buffers), a differing non-empty schema is a
fatal protocol error, an identical schema is a no-op. -/
def processMeasurementTracks (st : DecState) (_length : Nat) (s : List Wire) :
    Except PyError (DecState × List Wire) :=
  match readU64 s with
  | .error e => .error e
  | .ok (numberOfTracks, s1) =>
    match readTrackDefs numberOfTracks [] s1 with
    | .error e => .error e
    | .ok (newTrackTypes, s2) =>
      if st.currentTrackTypes.length = 0 then
        let online1 := newTrackTypes.foldl (fun f track => Function.update f track []) st.onlineData
        let complete1 := newTrackTypes.foldl (fun f track => Function.update f track []) st.completeData
        .ok ({ st with
                currentTrackTypes := newTrackTypes
                onlineData := online1
                completeData := complete1 },
             s2)
      else if st.currentTrackTypes ≠ newTrackTypes then
        .error (.dataProtocol "Primitive track types mismatch.")
      else .ok (st, s2)

/-- One framed packet: the 64-bit type tag, the declared payload byte
length, and the payload items. -/
structure Frame where
  tag : Nat
  length : Nat
  payload : List Wire
deriving DecidableEq, Repr

/-- One iteration of `_receiveDataThread`: dispatch one frame to its
processor by tag, record the tag as the last packet type; an unknown tag
raises `ZahnerDataProtocolError` and kills the thread. -/
def processFrame (st : DecState) (frame : Frame) : Except PyError DecState :=
  if frame.tag = PacketTypes.DATALIGHT then
    match processDataLight st frame.length frame.payload with
    | .error e => .error e
    | .ok (st1, _) => .ok { st1 with lastPacketType := some frame.tag }
  else if frame.tag = PacketTypes.DATALIGHTBULK then
    match processDataLightBulk st frame.length frame.payload with
    | .error e => .error e
    | .ok (st1, _) => .ok { st1 with lastPacketType := some frame.tag }
  else if frame.tag = PacketTypes.DATALIGHTBULKAPPENDUM then
    match processDataLightBulkAppendum st frame.length frame.payload with
    | .error e => .error e
    | .ok (st1, _) => .ok { st1 with lastPacketType := some frame.tag }
  else if frame.tag = PacketTypes.MEASUREMENTHEADER then
    match processMeasurementHeader st frame.length frame.payload with
    | .error e => .error e
    | .ok (st1, _) => .ok { st1 with lastPacketType := some frame.tag }
  else if frame.tag = PacketTypes.MEASUREMENTTRACKS then
    match processMeasurementTracks st frame.length frame.payload with
    | .error e => .error e
    | .ok (st1, _) => .ok { st1 with lastPacketType := some frame.tag }
  else .error (.dataProtocol ("Unknown Packet: " ++ toString frame.tag))

/-- The decode loop of `_receiveDataThread`: process frames in order; a
raised error terminates the thread, so no later frame is processed. -/
def processFrames (st : DecState) : List Frame → Except PyError DecState
  | [] => .ok st
  | frame :: rest =>
    match processFrame st frame with
    | .error e => .error e
    | .ok st1 => processFrames st1 rest

/-- `deletePoints`: replace both buffer dicts by fresh empty per-track
lists, reset the base time offset. The cycle maximum
(`_maximumTimeInCycle`) is not touched by the source. -/
def deletePoints (st : DecState) : DecState :=
  let complete1 :=
    st.currentTrackTypes.foldl (fun f track => Function.update f track []) (fun _ => [])
  let online1 :=
    st.currentTrackTypes.foldl (fun f track => Function.update f track []) (fun _ => [])
  { st with
      completeData := complete1
      onlineData := online1
      lastMaximumTime := 0 }

/-- The per-track slicing loop shared by `getCompletePoints` and
`getOnlinePoints`, after the `None` max index has been resolved:
`maxIndex == 0` clears the track, `maxIndex >= len` keeps it whole
(ignoring `minIndex`), otherwise the track is sliced `[minIndex:maxIndex]`. -/
def sliceTrack (l : List Int) (minIndex maxIndex : Nat) : List Int :=
  if maxIndex = 0 then []
  else if maxIndex ≥ l.length then l
  else (l.take maxIndex).drop minIndex

/-- The shared body of `getCompletePoints` / `getOnlinePoints`: resolve a
`None` max index to the minimum track length (Python `min` raises
`ValueError` on an empty dict), then slice every track. -/
def slicePoints (tracks : List TrackTypes) (data : TrackTypes → List Int)
    (minIndex : Nat) (maxIndex : Option Nat) :
    Except PyError (TrackTypes → List Int) :=
  match maxIndex with
  | none =>
    match (tracks.map fun track => (data track).length).min? with
    | none => .error (.valueError "min() arg is an empty sequence")
    | some m => .ok (fun track => if track ∈ tracks then sliceTrack (data track) minIndex m else [])
  | some m => .ok (fun track => if track ∈ tracks then sliceTrack (data track) minIndex m else [])

/-- `getCompletePoints`. -/
def getCompletePoints (st : DecState) (minIndex : Nat) (maxIndex : Option Nat) :
    Except PyError (TrackTypes → List Int) :=
  slicePoints st.currentTrackTypes st.completeData minIndex maxIndex

/-- `getOnlinePoints`. -/
def getOnlinePoints (st : DecState) (minIndex : Nat) (maxIndex : Option Nat) :
    Except PyError (TrackTypes → List Int) :=
  slicePoints st.currentTrackTypes st.onlineData minIndex maxIndex

/-- Observation helper: the complete buffer of one track of a decode
result. -/
def completeTrackOf (r : Except PyError DecState) (track : TrackTypes) : Option (List Int) :=
  match r with
  | .ok st => some (st.completeData track)
  | .error _ => none

/-- Observation helper: the online buffer of one track of a decode
result. -/
def onlineTrackOf (r : Except PyError DecState) (track : TrackTypes) : Option (List Int) :=
  match r with
  | .ok st => some (st.onlineData track)
  | .error _ => none

/-- A well-formed DataLight frame carrying one sample (one f64 per schema
track, in schema order). -/
def mkDataLightFrame (tracks : List TrackTypes) (vs : List Int) : Frame :=
  { tag := PacketTypes.DATALIGHT, length := 8 * tracks.length, payload := vs.map Wire.f64 }

/-- A list of well-formed DataLight frames, one per sample. -/
def dataLightFrames (tracks : List TrackTypes) (samples : List (List Int)) : List Frame :=
  samples.map (mkDataLightFrame tracks)

/-! Command channel (serial_interface.py, `SerialCommandInterface`). -/

/-- `CommandType` enumeration of serial_interface.py. -/
inductive CommandType where
  | COMMAND
  | CONTROL
deriving DecidableEq, Repr

/-- Iteration order of `self.waiting.keys()` / `self.queues.keys()`
(dict insertion order fixed by `__init__`). -/
def allCommandTypes : List CommandType := [CommandType.COMMAND, CommandType.CONTROL]

/-- The state of a `SerialCommandInterface`: per-lane awaiting flag
(holding the sent command, `None` when not awaiting) and per-lane reply
queue contents (front = next `get`, `none` = close sentinel). -/
structure CmdState where
  waiting : CommandType → Option String
  queues : CommandType → List (Option String)

/-- `self.queues[key].put(msg)`: append a message to one lane's queue. -/
def putQueue (st : CmdState) (key : CommandType) (msg : Option String) : CmdState :=
  { st with queues := Function.update st.queues key (st.queues key ++ [msg]) }

/-- Clearing every awaiting flag (the
`for key in self.waiting.keys(): self.waiting[key] = None` loop). -/
def clearWaiting (st : CmdState) : CmdState :=
  { st with waiting := fun _ => none }

/-- Python `"ok" in line`: substring containment test of the listener. -/
def containsOk (line : String) : Bool :=
  decide ("ok".toList <:+: line.toList)

/-- The two-waiters branch of `_telegramListenerJob` (both lanes awaiting):
after reading a second line, dispatch by content. If both lines contain
`"ok"`, the literal string `"ok"` is put to both lanes; if exactly one
contains `"ok"`, that line goes to CONTROL and the other to COMMAND;
otherwise a `ValueError` kills the listener. Both awaiting flags are
cleared on every non-fatal path. -/
def telegramListenerTwoWaiting (st : CmdState) (line line2 : String) :
    Except PyError CmdState :=
  if containsOk line = true ∧ containsOk line2 = true then
    .ok (clearWaiting
      (putQueue (putQueue st CommandType.COMMAND (some "ok")) CommandType.CONTROL (some "ok")))
  else if containsOk line = true then
    .ok (clearWaiting
      (putQueue (putQueue st CommandType.CONTROL (some line)) CommandType.COMMAND (some line2)))
  else if containsOk line2 = true then
    .ok (clearWaiting
      (putQueue (putQueue st CommandType.CONTROL (some line2)) CommandType.COMMAND (some line)))
  else .error (.valueError ("Unexpected error: line;line2 " ++ line ++ " ; " ++ line2))

/-- `waitingKeys`: the lanes currently marked awaiting, in dict key order. -/
def waitingKeys (st : CmdState) : List CommandType :=
  allCommandTypes.filter (fun key => st.waiting key ≠ none)

/-- The after-loop block of `_telegramListenerJob`: for every lane still
awaiting, put the `None` close sentinel into its queue and clear its flag. -/
def closeTelegramListener (st : CmdState) : CmdState :=
  allCommandTypes.foldl
    (fun st1 key =>
      if st1.waiting key ≠ none then
        let st2 := putQueue st1 key none
        { st2 with waiting := Function.update st2.waiting key none }
      else st1)
    st

/-- One transport observation made by the listener thread: a received line,
an empty read (disconnect), or a raised transport error. -/
inductive ReadEvent where
  | line (s : String)
  | emptyRead
  | fail
deriving DecidableEq, Repr

/-- The listener loop of `_telegramListenerJob` over a sequence of
transport events. An empty read or a transport error stops the loop (the
remaining events are never read — no retry) and runs the close block; an
exhausted event list models an external `stop()`. A received line is
dispatched by the number of awaiting lanes; with two awaiting lanes a
second line is read from the transport. -/
def telegramListenerJob (st : CmdState) : List ReadEvent → Except PyError CmdState
  | [] => .ok (closeTelegramListener st)
  | ReadEvent.emptyRead :: _ => .ok (closeTelegramListener st)
  | ReadEvent.fail :: _ => .ok (closeTelegramListener st)
  | ReadEvent.line s :: rest =>
    match waitingKeys st with
    | [] => .error (.valueError ("Nothing sent, which includes the answer: " ++ s))
    | [key] =>
      let st1 := putQueue st key (some s)
      let st2 := { st1 with waiting := Function.update st1.waiting key none }
      telegramListenerJob st2 rest
    | _ :: _ :: _ =>
      match rest with
      | ReadEvent.line s2 :: rest2 =>
        match telegramListenerTwoWaiting st s s2 with
        | .error e => .error e
        | .ok st1 => telegramListenerJob st1 rest2
      | _ => .error .streamEnd

/-- `waitForReplyString`: blocking `get` from one lane's queue; the `None`
close sentinel raises `ZahnerConnectionError`. An empty queue models a
still-blocked caller. -/
def waitForReplyString (st : CmdState) (commandType : CommandType) :
    Except PyError (String × CmdState) :=
  match st.queues commandType with
  | [] => .error .streamEnd
  | reply :: rest =>
    let st1 := { st with queues := Function.update st.queues commandType rest }
    match reply with
    | none => .error (.connectionError "Connection to the device interrupted")
    | some r => .ok (r, st1)

/-- Observation helper: the queue contents of one lane of a listener
result. -/
def queueOf (r : Except PyError CmdState) (key : CommandType) : Option (List (Option String)) :=
  match r with
  | .ok st => some (st.queues key)
  | .error _ => none

/-! Error model (error.py, `ZahnerSCPIError`). -/

/-- The `_message_strings` code→text table of `ZahnerSCPIError`. -/
def messageStrings : List (Int × String) :=
  [(100, "value is out of range"),
   (27, "command does not exist"),
   (1003, "setup global limit reached"),
   (1004, "value is out of limited range"),
   (1005, "measurement was aborted. The status has to be cleared with \\*CLS."),
   (1006, "command is not executed because of an previous error or manual abort. (1003, 1005)"),
   (1007, "an error occurred during calibration. The device may be faulty."),
   (42, "undefinded error"),
   (1000, "this command has not been implemented yet. But is foreseen.")]

/-- The generic fallback description for codes absent from the table. -/
def fallbackMessage : String :=
  "unknown error – maybe upgrade your version of `zahner_potentiostat` package"

/-- The data carried by a constructed `ZahnerSCPIError`: the numeric code
(`_error_code`) and the resolved description (`_error_message`). -/
structure SCPIErrorData where
  errorCode : Int
  errorMessage : String
deriving DecidableEq, Repr

/-- `ZahnerSCPIError.__init__` on a numeric code: resolve the description
through the table, falling back to the generic text, and store the code
verbatim. (The best-effort string-to-int parsing branch for string codes is
not modelled; the claims concern numeric codes.) -/
def mkZahnerSCPIError (errorCode : Int) : SCPIErrorData :=
  { errorCode := errorCode
    errorMessage :=
      match messageStrings.lookup errorCode with
      | some msg => msg
      | none => fallbackMessage }

/-! Concrete example states and inputs used to instantiate the claims. -/

/-- Clock-stitching example: primitive A with local times 0, 1, 2 and a
commit, then primitive B with local times 0, 1, 3 and a commit, decoded
under a TIME-only schema. -/
def c1Pipeline : Except PyError DecState :=
  match processFrames (mkInitialState [TrackTypes.TIME])
      (dataLightFrames [TrackTypes.TIME] [[0], [1], [2]]) with
  | .error e => .error e
  | .ok st =>
    match processFrames (onlineDataToCompleteData st)
        (dataLightFrames [TrackTypes.TIME] [[0], [1], [3]]) with
    | .error e => .error e
    | .ok st1 => .ok (onlineDataToCompleteData st1)

/-- A command interface state in which both lanes await a reply. -/
def stBothWaiting : CmdState :=
  { waiting := fun _ => some "cmd", queues := fun _ => [] }

/-- A decoder state with some committed and some online TIME data. -/
def stC3 : DecState :=
  { mkInitialState [TrackTypes.TIME] with
      onlineData := Function.update (fun _ => []) TrackTypes.TIME [1, 2]
      completeData := Function.update (fun _ => []) TrackTypes.TIME [0] }

/-- The sorting example of the spec: paired online data TIME = [3, 1, 2],
VOLTAGE = [30, 10, 20] under the schema [TIME, VOLTAGE]. -/
def stSortExample : DecState :=
  { mkInitialState [TrackTypes.TIME, TrackTypes.VOLTAGE] with
      onlineData :=
        Function.update (Function.update (fun _ => []) TrackTypes.TIME [3, 1, 2])
          TrackTypes.VOLTAGE [30, 10, 20] }

/-- A DataLightBulkAppendum frame carrying the records (3, 30), (1, 10),
(2, 20) for the schema [TIME, VOLTAGE], keyed by the TIME track (id 13):
payload is the key track id followed by three two-track records, declared
length 8 + 3 × 16. -/
def appendumExampleFrame : Frame :=
  { tag := PacketTypes.DATALIGHTBULKAPPENDUM
    length := 56
    payload := [Wire.u64 13, Wire.f64 3, Wire.f64 30, Wire.f64 1, Wire.f64 10,
                Wire.f64 2, Wire.f64 20] }

/-- A decoder state mid-primitive: a nonzero cycle maximum and some data. -/
def stC8 : DecState :=
  { mkInitialState [TrackTypes.TIME] with
      onlineData := Function.update (fun _ => []) TrackTypes.TIME [1]
      completeData := Function.update (fun _ => []) TrackTypes.TIME [2]
      maximumTimeInCycle := 1
      lastMaximumTime := 2 }

/-- A decoder state with three committed TIME points, for the slicing
claims. -/
def stC10 : DecState :=
  { mkInitialState [TrackTypes.TIME] with
      completeData := Function.update (fun _ => []) TrackTypes.TIME [10, 20, 30]
      onlineData := Function.update (fun _ => []) TrackTypes.TIME [40, 50] }

/-! Helper lemmas about the buffer-update folds and the stream readers. -/

/-- The per-track extend loop: under a duplicate-free track list, each
listed track's buffer is extended by `g`, all other tracks are untouched. -/
theorem foldl_update_append (g : TrackTypes → List Int) :
    ∀ (tracks : List TrackTypes) (f0 : TrackTypes → List Int) (t : TrackTypes),
      tracks.Nodup →
      tracks.foldl (fun f track => Function.update f track (f track ++ g track)) f0 t =
        if t ∈ tracks then f0 t ++ g t else f0 t
  | [], _, t, _ => by simp
  | track :: rest, f0, t, h => by
    have hni : track ∉ rest := (List.nodup_cons.mp h).1
    have hnr : rest.Nodup := (List.nodup_cons.mp h).2
    simp only [List.foldl_cons]
    rw [foldl_update_append g rest _ t hnr]
    by_cases ht : t = track
    · subst ht
      simp [hni, Function.update_same]
    · simp [Function.update_noteq ht, ht, List.mem_cons]

/-- The per-track clear loop: every listed track's buffer becomes empty,
all other tracks are untouched (no duplicate-freeness needed). -/
theorem foldl_update_nil :
    ∀ (tracks : List TrackTypes) (f0 : TrackTypes → List Int) (t : TrackTypes),
      tracks.foldl (fun f track => Function.update f track []) f0 t =
        if t ∈ tracks then [] else f0 t
  | [], _, _ => by simp
  | track :: rest, f0, t => by
    simp only [List.foldl_cons]
    rw [foldl_update_nil rest _ t]
    by_cases ht : t = track
    · subst ht
      by_cases hr : t ∈ rest <;> simp [hr, Function.update_same]
    · simp [Function.update_noteq ht, ht, List.mem_cons]

/-- Reading one f64 per track succeeds on a stream that starts with exactly
one value per track. -/
theorem readSample_append :
    ∀ (tracks : List TrackTypes) (vs : List Int) (packet : TrackTypes → Int) (s : List Wire),
      vs.length = tracks.length →
      ∃ pkt, readSample tracks packet (vs.map Wire.f64 ++ s) = .ok (pkt, s)
  | [], vs, packet, s, h => by
    have hv : vs = [] := List.eq_nil_of_length_eq_zero h
    subst hv
    exact ⟨packet, rfl⟩
  | track :: rest, vs, packet, s, h => by
    match vs, h with
    | v :: vs1, h =>
      simp only [List.map_cons, List.cons_append, readSample, readF64]
      exact readSample_append rest vs1 (Function.update packet track v) s (by simpa using h)

/-! Claim theorems. -/

/-- C8 counterexample: `deletePoints` does not reset the cycle maximum
(`_maximumTimeInCycle`). On a state with cycle maximum 1 the value is still
1 afterwards, not 0 as the claim states. -/
theorem C8_counterexample :
    stC8.maximumTimeInCycle = 1 ∧
    (deletePoints stC8).maximumTimeInCycle = 1 ∧ (1 : Int) ≠ 0 := by
  refine ⟨rfl, rfl, by norm_num⟩

/-- C8 (amended): after `deletePoints` the online and complete buffers of
every track are empty and `baseOffset` (`_lastMaximumTime`) is reset to 0,
while the track schema is unchanged; `cycleMax` (`_maximumTimeInCycle`) is
left unchanged, not reset. -/
theorem C8_clear (st : DecState) :
    (∀ t, (deletePoints st).onlineData t = []) ∧
    (∀ t, (deletePoints st).completeData t = []) ∧
    (deletePoints st).lastMaximumTime = 0 ∧
    (deletePoints st).maximumTimeInCycle = st.maximumTimeInCycle ∧
    (deletePoints st).currentTrackTypes = st.currentTrackTypes := by
  refine ⟨fun t => ?_, fun t => ?_, rfl, rfl, rfl⟩ <;>
    · simp only [deletePoints]
      rw [foldl_update_nil]
      split <;> rfl

/-- C9: constructing `ZahnerSCPIError` with a code present in the
`_message_strings` table resolves its documented text (in particular 1005
and 100), while any code absent from the table resolves the generic
fallback text with the numeric code stored verbatim (in particular 9999). -/
theorem C9_error_codes :
    (∀ p ∈ messageStrings, mkZahnerSCPIError p.1 = ⟨p.1, p.2⟩) ∧
    mkZahnerSCPIError 1005 =
      ⟨1005, "measurement was aborted. The status has to be cleared with \\*CLS."⟩ ∧
    mkZahnerSCPIError 100 = ⟨100, "value is out of range"⟩ ∧
    (∀ code, messageStrings.lookup code = none →
      mkZahnerSCPIError code = ⟨code, fallbackMessage⟩) ∧
    mkZahnerSCPIError 9999 = ⟨9999, fallbackMessage⟩ ∧
    (mkZahnerSCPIError 9999).errorCode = 9999 := by
  refine ⟨by decide, by decide, by decide, fun code h => ?_, by decide, by decide⟩
  simp [mkZahnerSCPIError, h]

/-- C9 witness: the theorem applied to the table entry for 1005 and to the
absent code 12345. -/
theorem C9_error_codes_witness :
    mkZahnerSCPIError 1005 =
      ⟨1005, "measurement was aborted. The status has to be cleared with \\*CLS."⟩ ∧
    mkZahnerSCPIError 12345 = ⟨12345, fallbackMessage⟩ :=
  ⟨C9_error_codes.1 (1005, "measurement was aborted. The status has to be cleared with \\*CLS.")
      (by decide),
   C9_error_codes.2.2.2.1 12345 (by decide)⟩

/-- C3: commit (`_onlineDataToCompleteData`) is destructive-and-additive:
for every pre-commit state over a duplicate-free schema, every schema
track's online buffer is empty afterwards, and its complete buffer is the
pre-commit complete buffer with the pre-commit online elements appended in
order, so its length grew by exactly the pre-commit online length. -/
theorem C3_commit (st : DecState) (h : st.currentTrackTypes.Nodup) :
    ∀ t ∈ st.currentTrackTypes,
      (onlineDataToCompleteData st).onlineData t = [] ∧
      (onlineDataToCompleteData st).completeData t = st.completeData t ++ st.onlineData t ∧
      ((onlineDataToCompleteData st).completeData t).length =
        (st.completeData t).length + (st.onlineData t).length := by
  intro t ht
  have hcomplete : (onlineDataToCompleteData st).completeData t =
      st.completeData t ++ st.onlineData t := by
    simp only [onlineDataToCompleteData, clearOnlineData]
    rw [foldl_update_append st.onlineData st.currentTrackTypes st.completeData t h, if_pos ht]
  refine ⟨?_, hcomplete, by rw [hcomplete, List.length_append]⟩
  simp only [onlineDataToCompleteData, clearOnlineData]
  rw [foldl_update_nil, if_pos ht]

/-- C3 witness: the commit theorem applied to a concrete state with
committed TIME data `[0]` and online TIME data `[1, 2]`. -/
theorem C3_commit_witness :
    (onlineDataToCompleteData stC3).onlineData TrackTypes.TIME = [] ∧
    (onlineDataToCompleteData stC3).completeData TrackTypes.TIME =
      stC3.completeData TrackTypes.TIME ++ stC3.onlineData TrackTypes.TIME ∧
    ((onlineDataToCompleteData stC3).completeData TrackTypes.TIME).length =
      (stC3.completeData TrackTypes.TIME).length + (stC3.onlineData TrackTypes.TIME).length :=
  C3_commit stC3 (by decide) TrackTypes.TIME (by decide)

/-- C10: snapshot slicing of `getCompletePoints` / `getOnlinePoints`: a
track's returned sequence is empty when the max index is 0; is the whole
unsliced track (the min index is ignored) when the max index is at least
the track's length; and is the slice from `minIndex` (inclusive) to
`maxIndex` (exclusive) when `0 < maxIndex < length`; a `None` max index is
resolved to the minimum length across the tracks. -/
theorem C10_slicing (st : DecState) (minIndex : Nat) (t : TrackTypes)
    (ht : t ∈ st.currentTrackTypes) :
    (∀ m : Nat, ∃ f, getCompletePoints st minIndex (some m) = .ok f ∧
      (m = 0 → f t = []) ∧
      ((st.completeData t).length ≤ m → f t = st.completeData t) ∧
      (0 < m → m < (st.completeData t).length →
        f t = ((st.completeData t).take m).drop minIndex)) ∧
    (∀ m : Nat, ∃ f, getOnlinePoints st minIndex (some m) = .ok f ∧
      (m = 0 → f t = []) ∧
      ((st.onlineData t).length ≤ m → f t = st.onlineData t) ∧
      (0 < m → m < (st.onlineData t).length →
        f t = ((st.onlineData t).take m).drop minIndex)) ∧
    (st.currentTrackTypes ≠ [] →
      ∃ f, getCompletePoints st minIndex none = .ok f ∧
        f t = sliceTrack (st.completeData t) minIndex
          (minTrackLength st.currentTrackTypes st.completeData)) ∧
    (st.currentTrackTypes ≠ [] →
      ∃ f, getOnlinePoints st minIndex none = .ok f ∧
        f t = sliceTrack (st.onlineData t) minIndex
          (minTrackLength st.currentTrackTypes st.onlineData)) := by
  have hcases : ∀ (l : List Int) (m : Nat),
      (m = 0 → sliceTrack l minIndex m = []) ∧
      (l.length ≤ m → sliceTrack l minIndex m = l) ∧
      (0 < m → m < l.length → sliceTrack l minIndex m = (l.take m).drop minIndex) := by
    intro l m
    refine ⟨fun h0 => by simp [sliceTrack, h0], fun hle => ?_, fun hpos hlt => ?_⟩
    · rcases Nat.eq_zero_or_pos m with hm | hm
      · subst hm
        have : l = [] := List.eq_nil_of_length_eq_zero (Nat.le_zero.mp hle)
        simp [sliceTrack, this]
      · rw [sliceTrack, if_neg (Nat.pos_iff_ne_zero.mp hm), if_pos hle]
    · rw [sliceTrack, if_neg (Nat.pos_iff_ne_zero.mp hpos), if_neg (not_le.mpr hlt)]
  have hsome : ∀ (data : TrackTypes → List Int) (m : Nat),
      slicePoints st.currentTrackTypes data minIndex (some m) =
        .ok (fun track => if track ∈ st.currentTrackTypes
          then sliceTrack (data track) minIndex m else []) := fun _ _ => rfl
  have hnone : st.currentTrackTypes ≠ [] → ∀ data : TrackTypes → List Int,
      slicePoints st.currentTrackTypes data minIndex none =
        .ok (fun track => if track ∈ st.currentTrackTypes
          then sliceTrack (data track) minIndex (minTrackLength st.currentTrackTypes data)
          else []) := by
    intro hne data
    have hmapne : (st.currentTrackTypes.map fun track => (data track).length) ≠ [] := by
      simpa using hne
    rcases hm : (st.currentTrackTypes.map fun track => (data track).length).min? with _ | m0
    · exact absurd (List.min?_eq_none_iff.mp hm) hmapne
    · simp [slicePoints, hm, minTrackLength]
  refine ⟨fun m => ?_, fun m => ?_, fun hne => ?_, fun hne => ?_⟩
  · exact ⟨_, hsome st.completeData m, by
      have h := hcases (st.completeData t) m
      simp only [if_pos ht]
      exact ⟨h.1, h.2.1, h.2.2⟩⟩
  · exact ⟨_, hsome st.onlineData m, by
      have h := hcases (st.onlineData t) m
      simp only [if_pos ht]
      exact ⟨h.1, h.2.1, h.2.2⟩⟩
  · exact ⟨_, hnone hne st.completeData, by simp only [if_pos ht]⟩
  · exact ⟨_, hnone hne st.onlineData, by simp only [if_pos ht]⟩

/-- C10 witness: the slicing theorem applied to a concrete state with
complete TIME data `[10, 20, 30]`, min index 1 and max index 2. -/
theorem C10_slicing_witness :
    ∃ f, getCompletePoints stC10 1 (some 2) = .ok f ∧
      ((2 : Nat) = 0 → f TrackTypes.TIME = []) ∧
      ((stC10.completeData TrackTypes.TIME).length ≤ 2 →
        f TrackTypes.TIME = stC10.completeData TrackTypes.TIME) ∧
      ((0 : Nat) < 2 → 2 < (stC10.completeData TrackTypes.TIME).length →
        f TrackTypes.TIME = ((stC10.completeData TrackTypes.TIME).take 2).drop 1) :=
  (C10_slicing stC10 1 TrackTypes.TIME (by decide)).1 2

/-- C2 counterexample: the listener tests substring containment
(`"ok" in line`), not equality. With the lines `"ok"` and `"broken"`
exactly one line equals `"ok"`, yet because `"broken"` contains `"ok"` the
listener takes the both-acknowledged branch and delivers `"ok"` to the
COMMAND lane instead of `"broken"`. -/
theorem C2_counterexample :
    (("ok" : String) = "ok" ∧ ("broken" : String) ≠ "ok") ∧
    containsOk "broken" = true ∧
    queueOf (telegramListenerTwoWaiting stBothWaiting "ok" "broken") CommandType.COMMAND =
      some [some "ok"] ∧
    (some [some "ok"] : Option (List (Option String))) ≠ some [some "broken"] := by
  refine ⟨⟨rfl, by decide⟩, by decide, by decide, by decide⟩

/-- C2 (amended): lane disambiguation with both lanes awaiting tests
substring containment of `"ok"`, not equality: if both lines contain
`"ok"` the literal string `"ok"` is delivered to both lanes; if exactly
one line contains `"ok"` that line is delivered to the CONTROL lane and
the other line to the COMMAND lane; if neither contains `"ok"` the reader
fails fatally. Whenever delivery happens the result is identical for the
opposite arrival order, and both awaiting flags are cleared. -/
theorem C2_lane_disambiguation (st : CmdState) (line line2 : String) :
    (containsOk line = true → containsOk line2 = true →
      ∃ st1, telegramListenerTwoWaiting st line line2 = .ok st1 ∧
        st1.queues CommandType.CONTROL = st.queues CommandType.CONTROL ++ [some "ok"] ∧
        st1.queues CommandType.COMMAND = st.queues CommandType.COMMAND ++ [some "ok"] ∧
        st1.waiting = fun _ => none) ∧
    (containsOk line = true → containsOk line2 = false →
      ∃ st1, telegramListenerTwoWaiting st line line2 = .ok st1 ∧
        st1.queues CommandType.CONTROL = st.queues CommandType.CONTROL ++ [some line] ∧
        st1.queues CommandType.COMMAND = st.queues CommandType.COMMAND ++ [some line2] ∧
        st1.waiting = fun _ => none) ∧
    (containsOk line = false → containsOk line2 = true →
      ∃ st1, telegramListenerTwoWaiting st line line2 = .ok st1 ∧
        st1.queues CommandType.CONTROL = st.queues CommandType.CONTROL ++ [some line2] ∧
        st1.queues CommandType.COMMAND = st.queues CommandType.COMMAND ++ [some line] ∧
        st1.waiting = fun _ => none) ∧
    (containsOk line = false → containsOk line2 = false →
      telegramListenerTwoWaiting st line line2 =
        .error (.valueError ("Unexpected error: line;line2 " ++ line ++ " ; " ++ line2))) ∧
    ((containsOk line = true ∨ containsOk line2 = true) →
      telegramListenerTwoWaiting st line line2 = telegramListenerTwoWaiting st line2 line) := by
  have hq : ∀ (st1 : CmdState) (a b : CommandType) (x y : Option String), a ≠ b →
      (putQueue (putQueue st1 a x) b y).queues a = st1.queues a ++ [x] ∧
      (putQueue (putQueue st1 a x) b y).queues b = st1.queues b ++ [y] := by
    intro st1 a b x y hab
    constructor <;>
      simp [putQueue, Function.update_same, Function.update_noteq hab,
        Function.update_noteq hab.symm]
  have hcc : CommandType.COMMAND ≠ CommandType.CONTROL := by decide
  refine ⟨fun h1 h2 => ?_, fun h1 h2 => ?_, fun h1 h2 => ?_, fun h1 h2 => ?_, fun hor => ?_⟩
  · refine ⟨clearWaiting (putQueue (putQueue st CommandType.COMMAND (some "ok"))
        CommandType.CONTROL (some "ok")), ?_, ?_, ?_, rfl⟩
    · simp [telegramListenerTwoWaiting, h1, h2]
    · exact (hq st CommandType.COMMAND CommandType.CONTROL (some "ok") (some "ok") hcc).2
    · exact (hq st CommandType.COMMAND CommandType.CONTROL (some "ok") (some "ok") hcc).1
  · refine ⟨clearWaiting (putQueue (putQueue st CommandType.CONTROL (some line))
        CommandType.COMMAND (some line2)), ?_, ?_, ?_, rfl⟩
    · simp [telegramListenerTwoWaiting, h1, h2]
    · exact (hq st CommandType.CONTROL CommandType.COMMAND (some line) (some line2) hcc.symm).1
    · exact (hq st CommandType.CONTROL CommandType.COMMAND (some line) (some line2) hcc.symm).2
  · refine ⟨clearWaiting (putQueue (putQueue st CommandType.CONTROL (some line2))
        CommandType.COMMAND (some line)), ?_, ?_, ?_, rfl⟩
    · simp [telegramListenerTwoWaiting, h1, h2]
    · exact (hq st CommandType.CONTROL CommandType.COMMAND (some line2) (some line) hcc.symm).1
    · exact (hq st CommandType.CONTROL CommandType.COMMAND (some line2) (some line) hcc.symm).2
  · simp [telegramListenerTwoWaiting, h1, h2]
  · rcases h1 : containsOk line <;> rcases h2 : containsOk line2
    · rcases hor with h | h
      · exact Bool.noConfusion (h1.symm.trans h)
      · exact Bool.noConfusion (h2.symm.trans h)
    · simp [telegramListenerTwoWaiting, h1, h2]
    · simp [telegramListenerTwoWaiting, h1, h2]
    · simp [telegramListenerTwoWaiting, h1, h2]

/-- C2 witness: the amended disambiguation applied to the raw lines
`"ok"` and `"status=5"` with both lanes awaiting. -/
theorem C2_lane_disambiguation_witness :
    ∃ st1, telegramListenerTwoWaiting stBothWaiting "ok" "status=5" = .ok st1 ∧
      st1.queues CommandType.CONTROL = stBothWaiting.queues CommandType.CONTROL ++ [some "ok"] ∧
      st1.queues CommandType.COMMAND =
        stBothWaiting.queues CommandType.COMMAND ++ [some "status=5"] ∧
      st1.waiting = fun _ => none :=
  (C2_lane_disambiguation stBothWaiting "ok" "status=5").2.1 (by decide) (by decide)

/-- Close handling: after the close block every awaiting lane's queue got
the `none` sentinel appended and every lane's awaiting flag is clear;
queues of non-awaiting lanes are untouched. -/
theorem closeTelegramListener_spec (st : CmdState) (key : CommandType) :
    ((closeTelegramListener st).queues key =
      if st.waiting key ≠ none then st.queues key ++ [none] else st.queues key) ∧
    (closeTelegramListener st).waiting key = none := by
  have hcc : CommandType.COMMAND ≠ CommandType.CONTROL := by decide
  cases key <;>
    · by_cases h1 : st.waiting CommandType.COMMAND = none <;>
        by_cases h2 : st.waiting CommandType.CONTROL = none <;>
          simp [closeTelegramListener, allCommandTypes, putQueue, h1, h2,
            Function.update_same, Function.update_noteq hcc,
            Function.update_noteq hcc.symm]

/-- C7: when the command-channel reader thread terminates — empty read,
transport error, or stop — every lane still marked awaiting receives the
`None` close sentinel and its awaiting flag is cleared; a caller blocked in
`waitForReplyString` on such a lane then raises `ZahnerConnectionError`
instead of blocking forever; and on an empty read or a transport error the
listener ignores every remaining transport event (no retry) and goes
straight to the close block. -/
theorem C7_close_sentinel :
    (∀ (st : CmdState) (key : CommandType), st.waiting key ≠ none →
      (closeTelegramListener st).queues key = st.queues key ++ [none] ∧
      (closeTelegramListener st).waiting key = none) ∧
    (∀ (st : CmdState) (rest : List ReadEvent),
      telegramListenerJob st (ReadEvent.emptyRead :: rest) = .ok (closeTelegramListener st) ∧
      telegramListenerJob st (ReadEvent.fail :: rest) = .ok (closeTelegramListener st)) ∧
    (∀ (st : CmdState) (key : CommandType), st.waiting key ≠ none →
      st.queues key = [] →
      waitForReplyString (closeTelegramListener st) key =
        .error (.connectionError "Connection to the device interrupted")) := by
  refine ⟨fun st key h => ?_, fun st rest => ⟨rfl, rfl⟩, fun st key h hempty => ?_⟩
  · exact ⟨((closeTelegramListener_spec st key).1).trans (if_pos h), (closeTelegramListener_spec st key).2⟩
  · have hqueue : (closeTelegramListener st).queues key = [none] := by
      rw [((closeTelegramListener_spec st key).1).trans (if_pos h), hempty, List.nil_append]
    rw [waitForReplyString, hqueue]

/-- C7 witness: the close-sentinel theorem applied to a state in which both
lanes await a reply on empty queues. -/
theorem C7_close_sentinel_witness :
    ((closeTelegramListener stBothWaiting).queues CommandType.COMMAND =
        stBothWaiting.queues CommandType.COMMAND ++ [none] ∧
      (closeTelegramListener stBothWaiting).waiting CommandType.COMMAND = none) ∧
    telegramListenerJob stBothWaiting [ReadEvent.emptyRead, ReadEvent.line "late"] =
      .ok (closeTelegramListener stBothWaiting) ∧
    waitForReplyString (closeTelegramListener stBothWaiting) CommandType.CONTROL =
      .error (.connectionError "Connection to the device interrupted") :=
  ⟨C7_close_sentinel.1 stBothWaiting CommandType.COMMAND (by decide),
   (C7_close_sentinel.2.1 stBothWaiting [ReadEvent.line "late"]).1,
   C7_close_sentinel.2.2 stBothWaiting CommandType.CONTROL (by decide) rfl⟩

/-- C1: clock stitching. For every decoded DataLight sample with local
time t, the decoder raises the cycle maximum to t whenever t exceeds it and
buffers t plus the base offset as the sample's TIME value; a commit adds
the cycle maximum to the base offset and resets the cycle maximum to 0.
Consequently local times [0, 1, 2], commit, [0, 1, 3], commit produce the
complete TIME track [0, 1, 2, 2, 3, 5]. -/
theorem C1_clock_stitching :
    (∀ (st : DecState) (s s1 : List Wire) (pkt : TrackTypes → Int),
      st.currentTrackTypes.Nodup →
      TrackTypes.TIME ∈ st.currentTrackTypes →
      readSample st.currentTrackTypes (fun _ => 0) s = .ok (pkt, s1) →
      ∃ st1, processDataLight st (8 * st.currentTrackTypes.length) s = .ok (st1, s1) ∧
        st1.maximumTimeInCycle =
          (if pkt TrackTypes.TIME > st.maximumTimeInCycle then pkt TrackTypes.TIME
            else st.maximumTimeInCycle) ∧
        st1.onlineData TrackTypes.TIME =
          st.onlineData TrackTypes.TIME ++ [pkt TrackTypes.TIME + st.lastMaximumTime] ∧
        st1.lastMaximumTime = st.lastMaximumTime ∧
        st1.completeData = st.completeData) ∧
    (∀ st : DecState,
      (onlineDataToCompleteData st).lastMaximumTime =
        st.lastMaximumTime + st.maximumTimeInCycle ∧
      (onlineDataToCompleteData st).maximumTimeInCycle = 0) ∧
    completeTrackOf c1Pipeline TrackTypes.TIME = some [0, 1, 2, 2, 3, 5] := by
  refine ⟨?_, fun st => ⟨rfl, rfl⟩, by decide⟩
  intro st s s1 pkt hN hT hread
  have honline := foldl_update_append
    (fun track => [Function.update pkt TrackTypes.TIME
      (pkt TrackTypes.TIME + st.lastMaximumTime) track])
    st.currentTrackTypes st.onlineData TrackTypes.TIME hN
  rw [if_pos hT] at honline
  simp only [Function.update_same] at honline
  refine ⟨{ st with
      maximumTimeInCycle :=
        if pkt TrackTypes.TIME > st.maximumTimeInCycle then pkt TrackTypes.TIME
        else st.maximumTimeInCycle
      onlineData :=
        st.currentTrackTypes.foldl
          (fun f track => Function.update f track
            (f track ++ [Function.update pkt TrackTypes.TIME
              (pkt TrackTypes.TIME + st.lastMaximumTime) track]))
          st.onlineData }, ?_, rfl, honline, rfl, rfl⟩
  simp only [processDataLight, eq_self_iff_true, if_true, hread, hT, ite_true]

/-- C1 witness: the stitching theorem applied to a TIME-only state and the
single-sample stream carrying the value 7. -/
theorem C1_clock_stitching_witness :
    ∃ st1, processDataLight (mkInitialState [TrackTypes.TIME])
        (8 * (mkInitialState [TrackTypes.TIME]).currentTrackTypes.length)
        [Wire.f64 7] = .ok (st1, []) ∧
      st1.maximumTimeInCycle =
        (if (Function.update (fun _ => (0 : Int)) TrackTypes.TIME 7) TrackTypes.TIME >
            (mkInitialState [TrackTypes.TIME]).maximumTimeInCycle
          then (Function.update (fun _ => (0 : Int)) TrackTypes.TIME 7) TrackTypes.TIME
          else (mkInitialState [TrackTypes.TIME]).maximumTimeInCycle) ∧
      st1.onlineData TrackTypes.TIME =
        (mkInitialState [TrackTypes.TIME]).onlineData TrackTypes.TIME ++
          [(Function.update (fun _ => (0 : Int)) TrackTypes.TIME 7) TrackTypes.TIME +
            (mkInitialState [TrackTypes.TIME]).lastMaximumTime] ∧
      st1.lastMaximumTime = (mkInitialState [TrackTypes.TIME]).lastMaximumTime ∧
      st1.completeData = (mkInitialState [TrackTypes.TIME]).completeData :=
  C1_clock_stitching.1 (mkInitialState [TrackTypes.TIME]) [Wire.f64 7] []
    (Function.update (fun _ => 0) TrackTypes.TIME 7) (by decide) (by decide) rfl

/-- Successful DataLight processing: with the TIME track in the schema and
a successfully read sample, `_processDataLight` stitches the clock and
appends the sample to every schema track. -/
theorem processDataLight_ok (st : DecState) (s s1 : List Wire) (pkt : TrackTypes → Int)
    (hT : TrackTypes.TIME ∈ st.currentTrackTypes)
    (hread : readSample st.currentTrackTypes (fun _ => 0) s = .ok (pkt, s1)) :
    processDataLight st (8 * st.currentTrackTypes.length) s =
      .ok ({ st with
        maximumTimeInCycle :=
          if pkt TrackTypes.TIME > st.maximumTimeInCycle then pkt TrackTypes.TIME
          else st.maximumTimeInCycle
        onlineData :=
          st.currentTrackTypes.foldl
            (fun f track => Function.update f track
              (f track ++ [Function.update pkt TrackTypes.TIME
                (pkt TrackTypes.TIME + st.lastMaximumTime) track]))
            st.onlineData }, s1) := by
  simp only [processDataLight, eq_self_iff_true, if_true, hread, hT, ite_true]

/-- Successful DataLight frame dispatch: with a duplicate-free schema
containing TIME and a well-formed payload, the frame is accepted, the
schema is unchanged and every schema track's online buffer gains exactly
the stitched sample value. -/
theorem processFrame_dataLight_ok (st : DecState) (vs : List Int) (pkt : TrackTypes → Int)
    (hN : st.currentTrackTypes.Nodup)
    (hT : TrackTypes.TIME ∈ st.currentTrackTypes)
    (hread : readSample st.currentTrackTypes (fun _ => 0) (vs.map Wire.f64) = .ok (pkt, [])) :
    ∃ st2, processFrame st (mkDataLightFrame st.currentTrackTypes vs) = .ok st2 ∧
      st2.currentTrackTypes = st.currentTrackTypes ∧
      st2.completeData = st.completeData ∧
      ∀ t ∈ st.currentTrackTypes, st2.onlineData t =
        st.onlineData t ++ [Function.update pkt TrackTypes.TIME
          (pkt TrackTypes.TIME + st.lastMaximumTime) t] := by
  have h := processDataLight_ok st (vs.map Wire.f64) [] pkt hT hread
  refine ⟨{ st with
      maximumTimeInCycle :=
        if pkt TrackTypes.TIME > st.maximumTimeInCycle then pkt TrackTypes.TIME
        else st.maximumTimeInCycle
      onlineData :=
        st.currentTrackTypes.foldl
          (fun f track => Function.update f track
            (f track ++ [Function.update pkt TrackTypes.TIME
              (pkt TrackTypes.TIME + st.lastMaximumTime) track]))
          st.onlineData
      lastPacketType := some PacketTypes.DATALIGHT }, ?_, rfl, rfl, fun t ht => ?_⟩
  · simp only [processFrame, mkDataLightFrame, eq_self_iff_true, if_true, ite_true, h]
  · have hfold := foldl_update_append
      (fun track => [Function.update pkt TrackTypes.TIME
        (pkt TrackTypes.TIME + st.lastMaximumTime) track])
      st.currentTrackTypes st.onlineData t hN
    rw [if_pos ht] at hfold
    exact hfold

/-- Running a list of well-formed DataLight frames from any state whose
schema tracks all have length L succeeds and leaves every schema track with
length L plus the number of frames. -/
theorem processFrames_dataLight (schema : List TrackTypes) (hN : schema.Nodup)
    (hT : TrackTypes.TIME ∈ schema) :
    ∀ (samples : List (List Int)) (st : DecState) (L : Nat),
      st.currentTrackTypes = schema →
      (∀ vs ∈ samples, vs.length = schema.length) →
      (∀ t ∈ schema, (st.onlineData t).length = L) →
      ∃ st1, processFrames st (dataLightFrames schema samples) = .ok st1 ∧
        st1.currentTrackTypes = schema ∧
        ∀ t ∈ schema, (st1.onlineData t).length = L + samples.length := by
  intro samples
  induction samples with
  | nil => exact fun st L hst _ hlen => ⟨st, rfl, hst, by simpa using hlen⟩
  | cons vs rest ih =>
    intro st L hst hwf hlen
    subst hst
    obtain ⟨pkt, hpkt⟩ : ∃ pkt,
        readSample st.currentTrackTypes (fun _ => 0) (vs.map Wire.f64) = .ok (pkt, []) := by
      have h := readSample_append st.currentTrackTypes vs (fun _ => 0) []
        (hwf vs (List.mem_cons_self vs rest))
      rwa [List.append_nil] at h
    obtain ⟨st2, hframe, hsch2, _, honl2⟩ := processFrame_dataLight_ok st vs pkt hN hT hpkt
    obtain ⟨st1, hrun, hschema, hlen1⟩ := ih st2 (L + 1) hsch2
      (fun ws hw => hwf ws (List.mem_cons_of_mem vs hw))
      (fun t ht => by rw [honl2 t ht, List.length_append, hlen t ht, List.length_cons,
        List.length_nil])
    refine ⟨st1, ?_, hschema, fun t ht => by rw [hlen1 t ht, List.length_cons]; omega⟩
    show processFrames st (mkDataLightFrame st.currentTrackTypes vs ::
      List.map (mkDataLightFrame st.currentTrackTypes) rest) = Except.ok st1
    rw [processFrames, hframe]
    exact hrun

/-- C5: for every sequence of well-formed DataLight frames under a fixed
duplicate-free schema containing TIME, after processing any prefix of n
frames from a fresh state every schema track's online buffer has length
exactly n — so all tracks have equal length at every observation point and
each frame appends exactly one value to every track. -/
theorem C5_equal_track_length (schema : List TrackTypes) (hN : schema.Nodup)
    (hT : TrackTypes.TIME ∈ schema) (samples : List (List Int))
    (hwf : ∀ vs ∈ samples, vs.length = schema.length) (n : Nat) (hn : n ≤ samples.length) :
    ∃ st1, processFrames (mkInitialState schema)
        (dataLightFrames schema (samples.take n)) = .ok st1 ∧
      st1.currentTrackTypes = schema ∧
      ∀ t ∈ schema, (st1.onlineData t).length = n := by
  obtain ⟨st1, hrun, hschema, hlen⟩ := processFrames_dataLight schema hN hT (samples.take n)
    (mkInitialState schema) 0 rfl (fun vs hv => hwf vs (List.take_subset n samples hv))
    (fun t _ => rfl)
  refine ⟨st1, hrun, hschema, fun t ht => ?_⟩
  rw [hlen t ht, List.length_take, Nat.zero_add, min_eq_left hn]

/-- C5 witness: two well-formed two-track frames decoded from a fresh
[TIME, VOLTAGE] state leave both online tracks with length 2. -/
theorem C5_equal_track_length_witness :
    ∃ st1, processFrames (mkInitialState [TrackTypes.TIME, TrackTypes.VOLTAGE])
        (dataLightFrames [TrackTypes.TIME, TrackTypes.VOLTAGE]
          ([[0, 5], [1, 6]].take 2)) = .ok st1 ∧
      st1.currentTrackTypes = [TrackTypes.TIME, TrackTypes.VOLTAGE] ∧
      ∀ t ∈ [TrackTypes.TIME, TrackTypes.VOLTAGE], (st1.onlineData t).length = 2 :=
  C5_equal_track_length [TrackTypes.TIME, TrackTypes.VOLTAGE] (by decide) (by decide)
    [[0, 5], [1, 6]] (by decide) 2 (by decide)

/-- C4: `_sortOnlineDataByTrack` applies one joint permutation to all
tracks — every track is rebuilt from its column of one stable-sorted row
list, the sorted rows are a permutation of the zipped rows, the key
track's values come out non-decreasing, and ties keep decode order (the
sort is stable); on the spec's example TIME = [3, 1, 2] with paired
VOLTAGE = [30, 10, 20] sorting by TIME yields TIME = [1, 2, 3] and
VOLTAGE = [10, 20, 30]; DataLightBulkAppendum processing then commits the
sorted online buffer to complete. -/
theorem C4_appendum_sort (st : DecState) (k : TrackTypes)
    (hk : k ∈ st.currentTrackTypes) :
    List.Perm
      (List.insertionSort (rowLe (trackIndex st.currentTrackTypes k))
        (zipRows st.currentTrackTypes st.onlineData))
      (zipRows st.currentTrackTypes st.onlineData) ∧
    (∀ t ∈ st.currentTrackTypes,
      (sortOnlineDataByTrack st k).onlineData t =
        (List.insertionSort (rowLe (trackIndex st.currentTrackTypes k))
          (zipRows st.currentTrackTypes st.onlineData)).map
          (fun row => row.getD (trackIndex st.currentTrackTypes t) 0)) ∧
    List.Pairwise (· ≤ ·) ((sortOnlineDataByTrack st k).onlineData k) ∧
    (∀ r1 r2 : List Int,
      List.Sublist [r1, r2] (zipRows st.currentTrackTypes st.onlineData) →
      r1.getD (trackIndex st.currentTrackTypes k) 0 ≤
        r2.getD (trackIndex st.currentTrackTypes k) 0 →
      List.Sublist [r1, r2] (List.insertionSort (rowLe (trackIndex st.currentTrackTypes k))
        (zipRows st.currentTrackTypes st.onlineData))) ∧
    ((sortOnlineDataByTrack stSortExample TrackTypes.TIME).onlineData TrackTypes.TIME =
        [1, 2, 3] ∧
      (sortOnlineDataByTrack stSortExample TrackTypes.TIME).onlineData TrackTypes.VOLTAGE =
        [10, 20, 30]) ∧
    (onlineTrackOf (processFrames (mkInitialState [TrackTypes.TIME, TrackTypes.VOLTAGE])
        [appendumExampleFrame]) TrackTypes.TIME = some [] ∧
      completeTrackOf (processFrames (mkInitialState [TrackTypes.TIME, TrackTypes.VOLTAGE])
        [appendumExampleFrame]) TrackTypes.TIME = some [1, 2, 3] ∧
      completeTrackOf (processFrames (mkInitialState [TrackTypes.TIME, TrackTypes.VOLTAGE])
        [appendumExampleFrame]) TrackTypes.VOLTAGE = some [10, 20, 30]) := by
  haveI : IsTotal (List Int) (rowLe (trackIndex st.currentTrackTypes k)) :=
    ⟨fun a b => le_total _ _⟩
  haveI : IsTrans (List Int) (rowLe (trackIndex st.currentTrackTypes k)) :=
    ⟨fun _ _ _ hab hbc => le_trans hab hbc⟩
  have hcols : ∀ t ∈ st.currentTrackTypes,
      (sortOnlineDataByTrack st k).onlineData t =
        (List.insertionSort (rowLe (trackIndex st.currentTrackTypes k))
          (zipRows st.currentTrackTypes st.onlineData)).map
          (fun row => row.getD (trackIndex st.currentTrackTypes t) 0) := by
    intro t ht
    simp only [sortOnlineDataByTrack, ht, if_true, ite_true]
  refine ⟨List.perm_insertionSort _ _, hcols, ?_, ?_, by decide, by decide⟩
  · rw [hcols k hk]
    exact List.Pairwise.map _ (fun a b hab => hab)
      (List.sorted_insertionSort (rowLe (trackIndex st.currentTrackTypes k))
        (zipRows st.currentTrackTypes st.onlineData))
  · intro r1 r2 hsub hle
    exact List.pair_sublist_insertionSort hle hsub

/-- C4 witness: the key column is non-decreasing after sorting the spec's
example state by TIME. -/
theorem C4_appendum_sort_witness :
    List.Pairwise (· ≤ ·)
      ((sortOnlineDataByTrack stSortExample TrackTypes.TIME).onlineData TrackTypes.TIME) :=
  (C4_appendum_sort stSortExample TrackTypes.TIME (by decide)).2.2.1

/-- An erroring frame stops the decode loop: no later frame is processed. -/
theorem processFrames_cons_error (st : DecState) (frame : Frame) (rest : List Frame)
    (e : PyError) (h : processFrame st frame = .error e) :
    processFrames st (frame :: rest) = .error e := by
  rw [processFrames, h]

/-- C6: fail-fast decode errors. An unknown packet-type tag, a non-integer
implied record count in a DataLightBulk or DataLightBulkAppendum payload, a
DataLight payload whose implied track count differs from the schema's, a
decoded DataLight sample lacking the TIME track, and a MeasurementTracks
frame conflicting with a non-empty schema each raise
`ZahnerDataProtocolError`, and no frame after the offending one is
processed. -/
theorem C6_fail_fast :
    (∀ (st : DecState) (frame : Frame) (rest : List Frame),
      frame.tag ∉ [PacketTypes.DATALIGHT, PacketTypes.DATALIGHTBULK,
        PacketTypes.DATALIGHTBULKAPPENDUM, PacketTypes.MEASUREMENTHEADER,
        PacketTypes.MEASUREMENTTRACKS] →
      processFrames st (frame :: rest) =
        .error (.dataProtocol ("Unknown Packet: " ++ toString frame.tag))) ∧
    (∀ (st : DecState) (length startIndex : Nat) (s : List Wire) (rest : List Frame),
      st.currentTrackTypes ≠ [] →
      ¬ ((st.currentTrackTypes.length * 8 : Int) ∣ ((length : Int) - 8)) →
      processFrames st
          (⟨PacketTypes.DATALIGHTBULK, length, Wire.u64 startIndex :: s⟩ :: rest) =
        .error (.dataProtocol "numberOfPackets for Bulk not correct")) ∧
    (∀ (st : DecState) (length trackNumber : Nat) (track : TrackTypes) (s : List Wire)
        (rest : List Frame),
      numberToTrack trackNumber = .ok track →
      st.currentTrackTypes ≠ [] →
      ¬ ((st.currentTrackTypes.length * 8 : Int) ∣ ((length : Int) - 8)) →
      processFrames st
          (⟨PacketTypes.DATALIGHTBULKAPPENDUM, length, Wire.u64 trackNumber :: s⟩ :: rest) =
        .error (.dataProtocol "numberOfPackets for Bulk appendum not correct")) ∧
    (∀ (st : DecState) (length : Nat) (s : List Wire) (rest : List Frame),
      length ≠ 8 * st.currentTrackTypes.length →
      processFrames st (⟨PacketTypes.DATALIGHT, length, s⟩ :: rest) =
        .error (.dataProtocol "numberOfTracks != len(self._currentTrackTypes)")) ∧
    (∀ (st : DecState) (vs : List Int) (s : List Wire) (rest : List Frame),
      vs.length = st.currentTrackTypes.length →
      TrackTypes.TIME ∉ st.currentTrackTypes →
      processFrames st
          (⟨PacketTypes.DATALIGHT, 8 * st.currentTrackTypes.length,
            vs.map Wire.f64 ++ s⟩ :: rest) =
        .error (.dataProtocol "No Time track")) ∧
    (∀ (st : DecState) (numberOfTracks length : Nat) (s s1 : List Wire)
        (newTrackTypes : List TrackTypes) (rest : List Frame),
      readTrackDefs numberOfTracks [] s = .ok (newTrackTypes, s1) →
      st.currentTrackTypes ≠ [] →
      st.currentTrackTypes ≠ newTrackTypes →
      processFrames st
          (⟨PacketTypes.MEASUREMENTTRACKS, length, Wire.u64 numberOfTracks :: s⟩ :: rest) =
        .error (.dataProtocol "Primitive track types mismatch.")) := by
  have hlen0 : ∀ st : DecState, st.currentTrackTypes ≠ [] →
      ¬ st.currentTrackTypes.length = 0 := by
    intro st h hc
    exact h (List.length_eq_zero.mp hc)
  refine ⟨fun st frame rest h => ?_, fun st length startIndex s rest hne hdvd => ?_,
    fun st length trackNumber track s rest htrack hne hdvd => ?_,
    fun st length s rest hlen => ?_, fun st vs s rest hv hT => ?_,
    fun st numberOfTracks length s s1 newTrackTypes rest hread hne hnew => ?_⟩
  · simp only [List.mem_cons, List.not_mem_nil, or_false, not_or] at h
    obtain ⟨h1, h2, h3, h4, h5⟩ := h
    refine processFrames_cons_error st frame rest _ ?_
    simp only [processFrame, h1, h2, h3, h4, h5, if_false, ite_false]
  · refine processFrames_cons_error st _ rest _ ?_
    simp only [processFrame, processDataLightBulk, readU64,
      (by decide : ¬ PacketTypes.DATALIGHTBULK = PacketTypes.DATALIGHT),
      (by decide : PacketTypes.DATALIGHTBULK = PacketTypes.DATALIGHTBULK),
      if_false, ite_false, if_true, ite_true, hlen0 st hne, hdvd]
  · refine processFrames_cons_error st _ rest _ ?_
    simp only [processFrame, processDataLightBulkAppendum, readU64, htrack,
      (by decide : ¬ PacketTypes.DATALIGHTBULKAPPENDUM = PacketTypes.DATALIGHT),
      (by decide : ¬ PacketTypes.DATALIGHTBULKAPPENDUM = PacketTypes.DATALIGHTBULK),
      (by decide : PacketTypes.DATALIGHTBULKAPPENDUM = PacketTypes.DATALIGHTBULKAPPENDUM),
      if_false, ite_false, if_true, ite_true, hlen0 st hne, hdvd]
  · refine processFrames_cons_error st _ rest _ ?_
    simp only [processFrame, processDataLight, hlen, if_false, ite_false, if_true, ite_true,
      eq_self_iff_true]
  · refine processFrames_cons_error st _ rest _ ?_
    obtain ⟨pkt, hpkt⟩ : ∃ pkt, readSample st.currentTrackTypes (fun _ => 0)
        (vs.map Wire.f64 ++ s) = .ok (pkt, s) :=
      readSample_append st.currentTrackTypes vs (fun _ => 0) s hv
    simp only [processFrame, processDataLight, eq_self_iff_true, if_true, ite_true, hpkt, hT,
      if_false, ite_false]
  · refine processFrames_cons_error st _ rest _ ?_
    simp only [processFrame, processMeasurementTracks, readU64, hread,
      (by decide : ¬ PacketTypes.MEASUREMENTTRACKS = PacketTypes.DATALIGHT),
      (by decide : ¬ PacketTypes.MEASUREMENTTRACKS = PacketTypes.DATALIGHTBULK),
      (by decide : ¬ PacketTypes.MEASUREMENTTRACKS = PacketTypes.DATALIGHTBULKAPPENDUM),
      (by decide : ¬ PacketTypes.MEASUREMENTTRACKS = PacketTypes.MEASUREMENTHEADER),
      (by decide : PacketTypes.MEASUREMENTTRACKS = PacketTypes.MEASUREMENTTRACKS),
      if_false, ite_false, if_true, ite_true, hlen0 st hne, hnew]
    rw [if_pos hnew]

/-- C6 witness: one concrete offending frame per error condition, each
followed by a further frame that is never processed. -/
theorem C6_fail_fast_witness :
    processFrames (mkInitialState [TrackTypes.TIME])
        [⟨1, 0, []⟩, ⟨PacketTypes.DATALIGHT, 8, [Wire.f64 0]⟩] =
      .error (.dataProtocol ("Unknown Packet: " ++ toString (1 : Nat))) ∧
    processFrames (mkInitialState [TrackTypes.TIME])
        [⟨PacketTypes.DATALIGHTBULK, 12, [Wire.u64 0]⟩] =
      .error (.dataProtocol "numberOfPackets for Bulk not correct") ∧
    processFrames (mkInitialState [TrackTypes.TIME])
        [⟨PacketTypes.DATALIGHTBULKAPPENDUM, 12, [Wire.u64 13]⟩] =
      .error (.dataProtocol "numberOfPackets for Bulk appendum not correct") ∧
    processFrames (mkInitialState [TrackTypes.TIME]) [⟨PacketTypes.DATALIGHT, 4, []⟩] =
      .error (.dataProtocol "numberOfTracks != len(self._currentTrackTypes)") ∧
    processFrames (mkInitialState [TrackTypes.VOLTAGE])
        [⟨PacketTypes.DATALIGHT,
          8 * (mkInitialState [TrackTypes.VOLTAGE]).currentTrackTypes.length,
          [(1 : Int)].map Wire.f64 ++ []⟩] =
      .error (.dataProtocol "No Time track") ∧
    processFrames (mkInitialState [TrackTypes.TIME])
        [⟨PacketTypes.MEASUREMENTTRACKS, 0,
          Wire.u64 1 :: [Wire.u64 11, Wire.strVal "U", Wire.strVal "V", Wire.strVal ""]⟩] =
      .error (.dataProtocol "Primitive track types mismatch.") :=
  ⟨C6_fail_fast.1 (mkInitialState [TrackTypes.TIME]) ⟨1, 0, []⟩
      [⟨PacketTypes.DATALIGHT, 8, [Wire.f64 0]⟩] (by decide),
   C6_fail_fast.2.1 (mkInitialState [TrackTypes.TIME]) 12 0 [] [] (by decide) (by decide),
   C6_fail_fast.2.2.1 (mkInitialState [TrackTypes.TIME]) 12 13 TrackTypes.TIME [] []
      rfl (by decide) (by decide),
   C6_fail_fast.2.2.2.1 (mkInitialState [TrackTypes.TIME]) 4 [] [] (by decide),
   C6_fail_fast.2.2.2.2.1 (mkInitialState [TrackTypes.VOLTAGE]) [1] [] [] (by decide)
      (by decide),
   C6_fail_fast.2.2.2.2.2 (mkInitialState [TrackTypes.TIME]) 1 0
      [Wire.u64 11, Wire.strVal "U", Wire.strVal "V", Wire.strVal ""] [] [TrackTypes.VOLTAGE]
      [] rfl (by decide) (by decide)⟩

end Zahner
